import Mathlib

/-!
Shallow embedding of the QuintoAndar scraper's HTML-to-record extraction
engine (src/models.py and src/data_parser.py).

Python strings are modelled as Lean `String`; mutation of the `PropertyInfo`
dataclass becomes explicit state passing.  Regular-expression searches used
by the source (`(\d+)`, `(\d+)\s*m²`, `(\d+)\s*quarto`, `(\d+)\s*su[ií]te`,
`(\d+)\s*banheiro`, `(\d+)\s*vaga`) are implemented directly as leftmost
scans over the character list, which coincide with the regex semantics on
these patterns because the character classes involved are disjoint.
Python's `str.lower` is modelled for ASCII and the Latin-1 letter range,
which covers every keyword and marker the source compares against.
BeautifulSoup is an external library: the `Page` structure below records,
for each CSS selector the source queries, the texts of the elements the
query would return, and the extractors are translated from the source on
top of that interface.
-/

/-- Python `str.lower` restricted to ASCII plus the Latin-1 uppercase
letters (U+00C0 to U+00DE except the multiplication sign), which is the
simple-lowercase map on every character the source's keywords use. -/
def toLowerCh (c : Char) : Char :=
  if 'A' ≤ c ∧ c ≤ 'Z' then Char.ofNat (c.toNat + 32)
  else if 0xC0 ≤ c.toNat ∧ c.toNat ≤ 0xDE ∧ c.toNat ≠ 0xD7 then Char.ofNat (c.toNat + 32)
  else c

/-- Lowercasing of a whole string, modelling Python `text.lower()`. -/
def pyLower (s : String) : String := ⟨s.data.map toLowerCh⟩

/-- The whitespace characters of Python's `\s` class and `str.strip`
(space, tab, newline, carriage return, vertical tab, form feed). -/
def isPySpace (c : Char) : Bool :=
  c == ' ' || c == '\t' || c == '\n' || c == '\r' || c == Char.ofNat 11 || c == Char.ofNat 12

/-- Drop leading whitespace of a character list. -/
def dropLeadingWs : List Char → List Char
  | [] => []
  | c :: cs => if isPySpace c then dropLeadingWs cs else c :: cs

/-- Python `str.strip()` (also models BeautifulSoup `get_text(strip=True)`
on an element whose text is given as one string). -/
def pyStrip (s : String) : String :=
  ⟨(dropLeadingWs (dropLeadingWs s.data).reverse).reverse⟩

/-- Whether `pat` occurs as a prefix of `l`. -/
def isPrefixL : List Char → List Char → Bool
  | [], _ => true
  | _ :: _, [] => false
  | a :: as, b :: bs => a == b && isPrefixL as bs

/-- Whether `pat` occurs as a contiguous sublist of `l`
(Python's `pat in s` on strings). -/
def containsSubL (pat : List Char) : List Char → Bool
  | [] => pat.isEmpty
  | c :: rest => isPrefixL pat (c :: rest) || containsSubL pat rest

/-- Python's substring containment `pat in s`. -/
def containsSub (pat s : String) : Bool := containsSubL pat.data s.data

/-- Split a character list into its maximal leading ASCII digit run and
the remainder. -/
def digitRun : List Char → List Char × List Char
  | [] => ([], [])
  | c :: cs =>
    if c.isDigit then
      let r := digitRun cs
      (c :: r.1, r.2)
    else ([], c :: cs)

/-- Drop the maximal leading whitespace run (the `\s*` part of the
source's regexes). -/
def spaceRun : List Char → List Char
  | [] => []
  | c :: cs => if isPySpace c then spaceRun cs else c :: cs

/-- Numeric value of a digit run, modelling Python `int` on the digits. -/
def digitsToNat (ds : List Char) : Nat :=
  ds.foldl (fun n c => n * 10 + (c.toNat - 48)) 0

/-- Try to match `(\d+)\s*kw` (for one of the alternative literals `kws`)
anchored at the head of `l`, returning the digit group. -/
def matchDigitsThenAny (kws : List (List Char)) (l : List Char) : Option (List Char) :=
  let r := digitRun l
  if r.1.isEmpty then none
  else if kws.any (fun kw => isPrefixL kw (spaceRun r.2)) then some r.1
  else none

/-- Leftmost search for `(\d+)\s*kw` over the whole list, as `re.search`
performs on these patterns, returning the digit group of the first
position where the pattern matches. -/
def searchDigitsThenAny (kws : List (List Char)) : List Char → Option (List Char)
  | [] => none
  | c :: cs =>
    match matchDigitsThenAny kws (c :: cs) with
    | some ds => some ds
    | none => searchDigitsThenAny kws cs

/-- `re.search` for `(\d+)\s*kw` returning the matched integer. -/
def searchNumBefore (kw : String) (s : String) : Option Nat :=
  (searchDigitsThenAny [kw.data] s.data).map digitsToNat

/-- `re.search` for `(\d+)\s*` followed by any of the alternative
keywords (used for the `su[ií]te` character class). -/
def searchNumBeforeAny (kws : List String) (s : String) : Option Nat :=
  (searchDigitsThenAny (kws.map String.data) s.data).map digitsToNat

/-- First maximal digit run anywhere in the list (the `(\d+)` regex). -/
def searchDigits : List Char → Option (List Char)
  | [] => none
  | c :: cs => if c.isDigit then some (digitRun (c :: cs)).1 else searchDigits cs

/-- Python truthiness of an optional string: `None` and `""` are falsy. -/
def truthyOpt : Option String → Bool
  | none => false
  | some s => s != ""

/-- The property record of src/models.py (`PropertyInfo`), with the
source's field names and defaults. -/
structure PropertyInfo where
  url : String
  title : Option String := none
  address_street : Option String := none
  area : Option String := none
  quartos : Option Nat := none
  suite : Nat := 0
  banheiros : Option Nat := none
  vagas : Option Nat := none
  andar : Option String := none
  pet : String := "não"
  mobiliado : String := "sim"
  metro_proximo : String := "não"
  prices : List (String × String) := []
  status : String := "pending"
  deriving Repr, DecidableEq

/-- `PropertyInfo.parse_number`: extract the first integer substring. -/
def parse_number (text : String) : Option Nat :=
  if text = "" then none
  else (searchDigits text.data).map digitsToNat

/-- `PropertyInfo.clean_area`: replace non-breaking spaces by plain
spaces, then `re.search((\d+)\s*m²)` and return the digit group. -/
def clean_area (text : String) : Option String :=
  if text = "" then none
  else
    let t : List Char := text.data.map (fun c => if c == Char.ofNat 160 then ' ' else c)
    (searchDigitsThenAny [("m²").data] t).map (fun ds => ⟨ds⟩)

/-- The rooms branch of `update_from_text` (src/models.py lines 92-111):
set `quartos` from `(\d+)\s*quarto` when in [1,10], then the suite
sub-rule. -/
def quartoBranch (p : PropertyInfo) (tl : String) : PropertyInfo :=
  let p1 :=
    match searchNumBefore "quarto" tl with
    | some q => if 1 ≤ q ∧ q ≤ 10 then { p with quartos := some q } else p
    | none => p
  if containsSub "suíte" tl || containsSub "suite" tl then
    match searchNumBeforeAny ["suíte", "suite"] tl with
    | some s => if 1 ≤ s ∧ s ≤ 5 then { p1 with suite := s } else p1
    | none => { p1 with suite := 1 }
  else p1

/-- The bathrooms branch of `update_from_text` (lines 113-119). -/
def banheiroBranch (p : PropertyInfo) (tl : String) : PropertyInfo :=
  match searchNumBefore "banheiro" tl with
  | some b => if 1 ≤ b ∧ b ≤ 10 then { p with banheiros := some b } else p
  | none => p

/-- The parking branch of `update_from_text` (lines 121-133), including
the source's self-comparison guard `elif v != v`. -/
def vagaBranch (p : PropertyInfo) (tl : String) : PropertyInfo :=
  match searchNumBefore "vaga" tl with
  | some v =>
    if 0 ≤ v ∧ v ≤ 10 then { p with vagas := some v }
    else if v ≠ v then { p with vagas := some 0 }
    else p
  | none => if containsSub "sem vaga" tl then { p with vagas := some 0 } else p

/-- The parking branch with the dead `elif v != v` arm removed. -/
def vagaBranchNodead (p : PropertyInfo) (tl : String) : PropertyInfo :=
  match searchNumBefore "vaga" tl with
  | some v =>
    if 0 ≤ v ∧ v ≤ 10 then { p with vagas := some v }
    else p
  | none => if containsSub "sem vaga" tl then { p with vagas := some 0 } else p

/-- `PropertyInfo.update_from_text`: classify one text fragment and update
the record, translated branch by branch from src/models.py lines 79-150.
The two `print` calls in the parking branch are I/O only and are omitted. -/
def update_from_text (p : PropertyInfo) (text : String) : PropertyInfo :=
  if text = "" then p
  else
    let tl := pyLower text
    if (containsSub "m²" text || containsSub "mâ²" tl) && !truthyOpt p.area then
      if !containsSub "quarto" tl then { p with area := clean_area text } else p
    else if containsSub "quarto" tl then quartoBranch p tl
    else if containsSub "banheiro" tl then banheiroBranch p tl
    else if containsSub "vaga" tl then vagaBranch p tl
    else if containsSub "andar" tl && p.andar == none then
      { p with andar := some text }
    else if containsSub "aceita pet" tl then { p with pet := "sim" }
    else if containsSub "sem mobília" tl || containsSub "sem mobiliá" tl then
      { p with mobiliado := "não" }
    else if containsSub "metrô" tl then { p with metro_proximo := "sim" }
    else p

/-- Variant of `update_from_text` with the self-comparison parking branch
(`elif v != v: self.vagas = 0`) removed, used to state that this branch
is dead logic. -/
def update_from_text_nodead (p : PropertyInfo) (text : String) : PropertyInfo :=
  if text = "" then p
  else
    let tl := pyLower text
    if (containsSub "m²" text || containsSub "mâ²" tl) && !truthyOpt p.area then
      if !containsSub "quarto" tl then { p with area := clean_area text } else p
    else if containsSub "quarto" tl then quartoBranch p tl
    else if containsSub "banheiro" tl then banheiroBranch p tl
    else if containsSub "vaga" tl then vagaBranchNodead p tl
    else if containsSub "andar" tl && p.andar == none then
      { p with andar := some text }
    else if containsSub "aceita pet" tl then { p with pet := "sim" }
    else if containsSub "sem mobília" tl || containsSub "sem mobiliá" tl then
      { p with mobiliado := "não" }
    else if containsSub "metrô" tl then { p with metro_proximo := "sim" }
    else p

/-- Generic key-value tree for the parsed JSON-LD blocks of
src/data_parser.py (strings, objects and arrays; the scalar metadata the
source inspects — type tags, address parts, prices — is carried as
strings). -/
inductive Json where
  | str (s : String)
  | obj (fields : List (String × Json))
  | arr (xs : List Json)

/-- Python `dict.get` on a JSON object (`none` elsewhere). -/
def jget : Json → String → Option Json
  | Json.obj fs, k => (fs.find? (fun kv => kv.1 == k)).map (fun kv => kv.2)
  | _, _ => none

mutual

/-- Python `repr` of a JSON value, used to model `str()` applied to a
non-string value. -/
def jsonRepr : Json → String
  | Json.str s => "\x27" ++ s ++ "\x27"
  | Json.arr xs => "[" ++ String.intercalate ", " (jsonReprList xs) ++ "]"
  | Json.obj fs => "\x7b" ++ String.intercalate ", " (jsonReprFields fs) ++ "\x7d"

/-- `repr` of the elements of a JSON array. -/
def jsonReprList : List Json → List String
  | [] => []
  | j :: js => jsonRepr j :: jsonReprList js

/-- `repr` of the fields of a JSON object. -/
def jsonReprFields : List (String × Json) → List String
  | [] => []
  | kv :: fs => ("\x27" ++ kv.1 ++ "\x27: " ++ jsonRepr kv.2) :: jsonReprFields fs

end

/-- Python `str()` of a JSON value. -/
def jsonToStr : Json → String
  | Json.str s => s
  | j => jsonRepr j

/-- Python truthiness of a JSON value. -/
def jsonTruthy : Json → Bool
  | Json.str s => s != ""
  | Json.arr xs => !xs.isEmpty
  | Json.obj fs => !fs.isEmpty

/-- The keyword list of `PropertyParser._is_property_data`. -/
def propertyKeywords : List String :=
  ["place", "residence", "apartment", "house", "realestate"]

/-- `PropertyParser._is_property_data`: the item is a dict whose `@type`
tag, rendered with `str()` and lowercased, contains one of the
keywords. -/
def is_property_data : Json → Bool
  | Json.obj fs =>
    let tv := (jget (Json.obj fs) "@type").getD (Json.str "")
    propertyKeywords.any (fun kw => containsSub kw (pyLower (jsonToStr tv)))
  | _ => false

/-- The list handling of `_extract_from_json_ld`: for a JSON array take
the first property-data item, else the first element, else an empty
dict; other values pass through. -/
def select_block : Json → Json
  | Json.arr xs =>
    match xs.find? is_property_data with
    | some it => it
    | none => xs.headD (Json.obj [])
  | j => j

/-- An address sub-field (street, locality, region) kept by the list
comprehension `[part for part in address_parts if part]`; the model
carries these parts as strings. -/
def getAddrPart (a : Json) (k : String) : Option String :=
  match jget a k with
  | some (Json.str s) => if s != "" then some s else none
  | _ => none

/-- Python dict assignment `d[k] = v`: overwrite in place when the key
exists, else append (insertion order preserved). -/
def dictInsert (m : List (String × String)) (k v : String) : List (String × String) :=
  if m.any (fun kv => kv.1 == k) then
    m.map (fun kv => if kv.1 == k then (k, v) else kv)
  else m ++ [(k, v)]

/-- Lookup in the price mapping. -/
def dictLookup (m : List (String × String)) (k : String) : Option String :=
  (m.find? (fun kv => kv.1 == k)).map (fun kv => kv.2)

/-- `PropertyParser._parse_json_ld_data`: address parts joined with
", ", and one synthetic price entry from the first offer. -/
def parse_json_ld_data (data : Json) (p : PropertyInfo) : PropertyInfo :=
  let p1 :=
    match jget data "address" with
    | some (Json.obj afs) =>
      let parts := List.filterMap (getAddrPart (Json.obj afs))
        ["streetAddress", "addressLocality", "addressRegion"]
      if !parts.isEmpty then { p with address_street := some (String.intercalate ", " parts) }
      else p
    | _ => p
  match jget data "offers" with
  | some offers =>
    if jsonTruthy offers then
      let offer : Json :=
        match offers with
        | Json.arr xs => xs.headD (Json.obj [])
        | Json.obj fs => Json.obj fs
        | _ => Json.obj []
      match offer with
      | Json.obj ofs =>
        match jget (Json.obj ofs) "price" with
        | some price =>
          if jsonTruthy price then
            let currency :=
              match jget (Json.obj ofs) "priceCurrency" with
              | some c => jsonToStr c
              | none => ""
            { p1 with prices :=
                dictInsert p1.prices "Preço (LD)" (pyStrip (currency ++ " " ++ jsonToStr price)) }
          else p1
        | none => p1
      | _ => p1
    else p1
  | none => p1

/-- One price-table row as the two selector queries of
`_extract_prices` see it: the text of the first label-like element (if
any) and the texts of all value-like elements. -/
structure PriceRow where
  labelText : Option String
  valueTexts : List String
  deriving Repr, DecidableEq

/-- The page as the source's selector queries observe it: each field
holds the element texts one of the CSS queries of src/data_parser.py
(via config.SELECTORS) would return.  A `none` entry of `jsonLdBlocks`
is a script block on which `json.loads` raises (skipped by the inner
`except`). -/
structure Page where
  jsonLdBlocks : List (Option Json) := []
  titleText : Option String := none
  addressParagraphTexts : List String := []
  addressContainerText : Option String := none
  genericAddressTexts : List (Option String) := []
  breadcrumbTexts : List String := []
  infoBlockTexts : List (List String) := []
  priceRows : List PriceRow := []

/-- The loop of `_extract_from_json_ld` over all structured-data
blocks. -/
def jsonLdFold : List (Option Json) → PropertyInfo → PropertyInfo
  | [], p => p
  | blk :: rest, p =>
    match blk with
    | none => jsonLdFold rest p
    | some data =>
      match select_block data with
      | Json.obj fs => jsonLdFold rest (parse_json_ld_data (Json.obj fs) p)
      | _ => jsonLdFold rest p

/-- `PropertyParser._extract_from_json_ld`. -/
def extract_from_json_ld (page : Page) (p : PropertyInfo) : PropertyInfo :=
  jsonLdFold page.jsonLdBlocks p

/-- `PropertyParser._extract_title`. -/
def extract_title (page : Page) (p : PropertyInfo) : PropertyInfo :=
  match page.titleText with
  | some raw => { p with title := some (pyStrip raw) }
  | none => p

/-- The dedup loop of address strategy 1: keep non-empty stripped texts
not already collected, in order. -/
def dedupParts : List String → List String → List String
  | [], acc => acc
  | t :: rest, acc =>
    let txt := pyStrip t
    if txt != "" && !acc.contains txt then dedupParts rest (acc ++ [txt])
    else dedupParts rest acc

/-- `re.sub(\s+, " ", s)`: collapse every whitespace run to one
space. -/
def collapseWsAux : List Char → Bool → List Char
  | [], _ => []
  | c :: cs, inWs =>
    if isPySpace c then
      if inWs then collapseWsAux cs true else ' ' :: collapseWsAux cs true
    else c :: collapseWsAux cs false

/-- Whitespace collapsing on strings. -/
def collapseWs (s : String) : String := ⟨collapseWsAux s.data false⟩

/-- Address strategy 3: first generic-selector element whose stripped
text is longer than 10 characters. -/
def strategy3 : List (Option String) → Option String
  | [] => none
  | none :: rest => strategy3 rest
  | some raw :: rest =>
    let text := pyStrip raw
    if text != "" && text.length > 10 then some text else strategy3 rest

/-- The geographic keywords of address strategy 4. -/
def addrKeywords : List String := ["sp", "paulo", "são", "rua", "av"]

/-- Address strategy 4 over the last two breadcrumb texts. -/
def strategy4 : List String → Option String
  | [] => none
  | b :: rest =>
    let text := pyStrip b
    if addrKeywords.any (fun kw => containsSub kw (pyLower text)) then some text
    else strategy4 rest

/-- Python `l[-2:]`. -/
def lastTwo (l : List String) : List String := l.drop (l.length - 2)

/-- `PropertyParser._extract_address`: early return when the
structured-data pass already set the address, else the four-strategy
waterfall. -/
def extract_address (page : Page) (p : PropertyInfo) : PropertyInfo :=
  if truthyOpt p.address_street then p
  else
    let s1 :=
      if page.addressParagraphTexts.isEmpty then none
      else
        let parts := dedupParts page.addressParagraphTexts []
        if !parts.isEmpty then some (String.intercalate ", " parts) else none
    match s1 with
    | some a => { p with address_street := some a }
    | none =>
      let s2 :=
        match page.addressContainerText with
        | none => none
        | some raw =>
          let t := collapseWs (pyStrip raw)
          if t != "" then some t else none
      match s2 with
      | some a => { p with address_street := some a }
      | none =>
        match strategy3 page.genericAddressTexts with
        | some a => { p with address_street := some a }
        | none =>
          match strategy4 (lastTwo page.breadcrumbTexts) with
          | some a => { p with address_street := some a }
          | none => p

/-- The block loop of `_extract_property_details`. -/
def detailsFold : List (List String) → PropertyInfo → PropertyInfo
  | [], p => p
  | block :: rest, p =>
    let parts := block.map pyStrip
    if parts.isEmpty then detailsFold rest p
    else detailsFold rest (update_from_text p (String.intercalate " " parts))

/-- `PropertyParser._extract_property_details`: feed each info block to
the text classifier, then the secondary recovery pass over the title. -/
def extract_property_details (page : Page) (p : PropertyInfo) : PropertyInfo :=
  let p1 := detailsFold page.infoBlockTexts p
  if truthyOpt p1.title then update_from_text p1 (p1.title.getD "") else p1

/-- One row of `_extract_prices`: skip rows without a non-empty label or
without value candidates, else store the last candidate's stripped
text. -/
def priceRowStep (p : PropertyInfo) (row : PriceRow) : PropertyInfo :=
  match row.labelText with
  | none => p
  | some lraw =>
    let label := pyStrip lraw
    if label = "" then p
    else
      match row.valueTexts.getLast? with
      | none => p
      | some vraw =>
        let value := pyStrip vraw
        if label ≠ "" ∧ value ≠ "" then { p with prices := dictInsert p.prices label value }
        else p

/-- The row loop of `_extract_prices`. -/
def pricesFold : List PriceRow → PropertyInfo → PropertyInfo
  | [], p => p
  | row :: rest, p => pricesFold rest (priceRowStep p row)

/-- `PropertyParser._extract_prices`. -/
def extract_prices (page : Page) (p : PropertyInfo) : PropertyInfo :=
  pricesFold page.priceRows p

/-- One extraction phase of the `try` block of `parse_property`.  The
returned record carries the in-place mutations the phase performed
before returning or raising; the flag records whether an exception
escaped the phase. -/
def Step : Type := PropertyInfo → PropertyInfo × Bool

/-- A phase of the concrete extractors, which are total in the model and
never raise. -/
def liftStep (f : PropertyInfo → PropertyInfo) : Step := fun p => (f p, false)

/-- Run the extraction phases in order, stopping at the first raised
exception and carrying the state accumulated so far. -/
def runSteps : List Step → PropertyInfo → PropertyInfo × Bool
  | [], p => (p, false)
  | s :: rest, p =>
    let r := s p
    if r.2 then r else runSteps rest r.1

/-- The fixed extraction sequence of `PropertyParser.parse_property`:
structured data, then title, address, details, prices. -/
def parserSteps (page : Page) : List Step :=
  [liftStep (extract_from_json_ld page), liftStep (extract_title page),
   liftStep (extract_address page), liftStep (extract_property_details page),
   liftStep (extract_prices page)]

/-- `PropertyParser.parse_property`: empty markup short-circuits to a
`no_content` record; otherwise the phases run inside one `try` whose
handler downgrades the status to `parse_error`, keeping every field set
before the failure. -/
def parse_property (steps : List Step) (html : String) (url : String) : PropertyInfo :=
  if html = "" then { url := url, status := "no_content" }
  else
    let r := runSteps steps { url := url }
    if r.2 then { r.1 with status := "parse_error" }
    else { r.1 with status := "success" }

/-- `parse_property_html`: the top-level parse of one page. -/
def parse_property_html (page : Page) (html : String) (url : String) : PropertyInfo :=
  parse_property (parserSteps page) html url

lemma quartoBranch_only (p : PropertyInfo) (tl : String) :
    (quartoBranch p tl).url = p.url ∧ (quartoBranch p tl).title = p.title
    ∧ (quartoBranch p tl).address_street = p.address_street
    ∧ (quartoBranch p tl).area = p.area
    ∧ (quartoBranch p tl).banheiros = p.banheiros
    ∧ (quartoBranch p tl).vagas = p.vagas
    ∧ (quartoBranch p tl).andar = p.andar
    ∧ (quartoBranch p tl).pet = p.pet
    ∧ (quartoBranch p tl).mobiliado = p.mobiliado
    ∧ (quartoBranch p tl).metro_proximo = p.metro_proximo
    ∧ (quartoBranch p tl).prices = p.prices
    ∧ (quartoBranch p tl).status = p.status := by
  unfold quartoBranch
  dsimp only
  repeat' split
  all_goals exact ⟨rfl, rfl, rfl, rfl, rfl, rfl, rfl, rfl, rfl, rfl, rfl, rfl⟩

lemma banheiroBranch_only (p : PropertyInfo) (tl : String) :
    (banheiroBranch p tl).url = p.url ∧ (banheiroBranch p tl).title = p.title
    ∧ (banheiroBranch p tl).address_street = p.address_street
    ∧ (banheiroBranch p tl).area = p.area
    ∧ (banheiroBranch p tl).quartos = p.quartos
    ∧ (banheiroBranch p tl).suite = p.suite
    ∧ (banheiroBranch p tl).vagas = p.vagas
    ∧ (banheiroBranch p tl).andar = p.andar
    ∧ (banheiroBranch p tl).pet = p.pet
    ∧ (banheiroBranch p tl).mobiliado = p.mobiliado
    ∧ (banheiroBranch p tl).metro_proximo = p.metro_proximo
    ∧ (banheiroBranch p tl).prices = p.prices
    ∧ (banheiroBranch p tl).status = p.status := by
  unfold banheiroBranch
  repeat' split
  all_goals exact ⟨rfl, rfl, rfl, rfl, rfl, rfl, rfl, rfl, rfl, rfl, rfl, rfl, rfl⟩

lemma vagaBranch_only (p : PropertyInfo) (tl : String) :
    (vagaBranch p tl).url = p.url ∧ (vagaBranch p tl).title = p.title
    ∧ (vagaBranch p tl).address_street = p.address_street
    ∧ (vagaBranch p tl).area = p.area
    ∧ (vagaBranch p tl).quartos = p.quartos
    ∧ (vagaBranch p tl).suite = p.suite
    ∧ (vagaBranch p tl).banheiros = p.banheiros
    ∧ (vagaBranch p tl).andar = p.andar
    ∧ (vagaBranch p tl).pet = p.pet
    ∧ (vagaBranch p tl).mobiliado = p.mobiliado
    ∧ (vagaBranch p tl).metro_proximo = p.metro_proximo
    ∧ (vagaBranch p tl).prices = p.prices
    ∧ (vagaBranch p tl).status = p.status := by
  unfold vagaBranch
  repeat' split
  all_goals exact ⟨rfl, rfl, rfl, rfl, rfl, rfl, rfl, rfl, rfl, rfl, rfl, rfl, rfl⟩

lemma update_from_text_frames (p : PropertyInfo) (t : String) :
    (update_from_text p t).url = p.url ∧ (update_from_text p t).title = p.title
    ∧ (update_from_text p t).address_street = p.address_street
    ∧ (update_from_text p t).prices = p.prices
    ∧ (update_from_text p t).status = p.status := by
  unfold update_from_text
  dsimp only
  repeat' split
  all_goals first
    | exact ⟨rfl, rfl, rfl, rfl, rfl⟩
    | exact ⟨(quartoBranch_only p (pyLower t)).1, (quartoBranch_only p (pyLower t)).2.1,
        (quartoBranch_only p (pyLower t)).2.2.1, (quartoBranch_only p (pyLower t)).2.2.2.2.2.2.2.2.2.2.1,
        (quartoBranch_only p (pyLower t)).2.2.2.2.2.2.2.2.2.2.2⟩
    | exact ⟨(banheiroBranch_only p (pyLower t)).1, (banheiroBranch_only p (pyLower t)).2.1,
        (banheiroBranch_only p (pyLower t)).2.2.1, (banheiroBranch_only p (pyLower t)).2.2.2.2.2.2.2.2.2.2.2.1,
        (banheiroBranch_only p (pyLower t)).2.2.2.2.2.2.2.2.2.2.2.2⟩
    | exact ⟨(vagaBranch_only p (pyLower t)).1, (vagaBranch_only p (pyLower t)).2.1,
        (vagaBranch_only p (pyLower t)).2.2.1, (vagaBranch_only p (pyLower t)).2.2.2.2.2.2.2.2.2.2.2.1,
        (vagaBranch_only p (pyLower t)).2.2.2.2.2.2.2.2.2.2.2.2⟩

lemma update_from_text_area_guard (p : PropertyInfo) (t : String)
    (h : truthyOpt p.area = true) : (update_from_text p t).area = p.area := by
  unfold update_from_text
  dsimp only
  repeat' split
  all_goals first
    | rfl
    | exact (quartoBranch_only p (pyLower t)).2.2.2.1
    | exact (banheiroBranch_only p (pyLower t)).2.2.2.1
    | exact (vagaBranch_only p (pyLower t)).2.2.2.1
    | simp_all

lemma update_from_text_andar_guard (p : PropertyInfo) (t : String)
    (h : p.andar ≠ none) : (update_from_text p t).andar = p.andar := by
  unfold update_from_text
  dsimp only
  repeat' split
  all_goals first
    | rfl
    | exact (quartoBranch_only p (pyLower t)).2.2.2.2.2.2.1
    | exact (banheiroBranch_only p (pyLower t)).2.2.2.2.2.2.2.1
    | exact (vagaBranch_only p (pyLower t)).2.2.2.2.2.2.2.1
    | simp_all

lemma quartoBranch_idem (p : PropertyInfo) (tl : String) :
    quartoBranch (quartoBranch p tl) tl = quartoBranch p tl := by
  unfold quartoBranch
  dsimp only
  rcases hq : searchNumBefore "quarto" tl with _ | q
  all_goals rcases hs : searchNumBeforeAny ["suíte", "suite"] tl with _ | s
  all_goals simp only [hq, hs]
  all_goals repeat' split
  all_goals rfl

lemma banheiroBranch_idem (p : PropertyInfo) (tl : String) :
    banheiroBranch (banheiroBranch p tl) tl = banheiroBranch p tl := by
  unfold banheiroBranch
  rcases hb : searchNumBefore "banheiro" tl with _ | b
  all_goals simp only [hb]
  all_goals repeat' split
  all_goals rfl

lemma vagaBranch_idem (p : PropertyInfo) (tl : String) :
    vagaBranch (vagaBranch p tl) tl = vagaBranch p tl := by
  unfold vagaBranch
  rcases hv : searchNumBefore "vaga" tl with _ | v
  all_goals simp only [hv]
  all_goals repeat' split
  all_goals rfl

lemma update_from_text_no_match (p : PropertyInfo) (t : String)
    (k1 : containsSub "m²" t = false) (k2 : containsSub "mâ²" (pyLower t) = false)
    (k3 : containsSub "quarto" (pyLower t) = false)
    (k4 : containsSub "banheiro" (pyLower t) = false)
    (k5 : containsSub "vaga" (pyLower t) = false)
    (k6 : containsSub "andar" (pyLower t) = false)
    (k7 : containsSub "aceita pet" (pyLower t) = false)
    (k8 : containsSub "sem mobília" (pyLower t) = false)
    (k9 : containsSub "sem mobiliá" (pyLower t) = false)
    (k10 : containsSub "metrô" (pyLower t) = false) :
    update_from_text p t = p := by
  by_cases ht : t = ""
  · subst ht; rfl
  · unfold update_from_text
    simp [ht, k1, k2, k3, k4, k5, k6, k7, k8, k9, k10]

lemma update_from_text_twice (p : PropertyInfo) (t : String)
    (h1 : containsSub "m²" t = false) (h2 : containsSub "mâ²" (pyLower t) = false)
    (h3 : containsSub "andar" (pyLower t) = false) :
    update_from_text (update_from_text p t) t = update_from_text p t := by
  by_cases ht : t = ""
  · subst ht; rfl
  · unfold update_from_text
    dsimp only
    simp only [if_neg ht, h1, h2, h3, Bool.false_or, Bool.false_and, Bool.false_eq_true,
      if_false]
    simp_all
    all_goals repeat' split
    all_goals first
      | rfl
      | exact quartoBranch_idem p (pyLower t)
      | exact banheiroBranch_idem p (pyLower t)
      | exact vagaBranch_idem p (pyLower t)

lemma quartoBranch_quartos (p : PropertyInfo) (tl : String) (q : Nat)
    (hsq : searchNumBefore "quarto" tl = some q) (h1 : 1 ≤ q) (h2 : q ≤ 10) :
    (quartoBranch p tl).quartos = some q := by
  unfold quartoBranch
  dsimp only
  simp only [hsq]
  repeat' split
  all_goals simp_all

lemma vagaBranch_eq_nodead (p : PropertyInfo) (tl : String) :
    vagaBranch p tl = vagaBranchNodead p tl := by
  unfold vagaBranch vagaBranchNodead
  rcases hv : searchNumBefore "vaga" tl with _ | v
  all_goals simp only [hv]
  all_goals repeat' split
  all_goals simp_all

/-- Claim C1, counterexample: a record whose rooms field already holds 2
is overwritten to 3 by a later fragment, so first-writer-wins does not
hold for the rooms field. -/
theorem c1_counterexample :
    (update_from_text { url := "u", quartos := some 2 } "3 quartos").quartos = some 3 := by
  decide

/-- Claim C1 (amended): first-writer-wins holds for the two guarded
scalar fields only.  A record whose area is non-empty never has its area
changed by `update_from_text`, and a record whose floor field is set is
never changed in that field; rooms, bathrooms and parking are
overwritten by later matching fragments. -/
theorem c1_amended_guarded_fields (p : PropertyInfo) (t : String) :
    (truthyOpt p.area = true → (update_from_text p t).area = p.area)
    ∧ (p.andar ≠ none → (update_from_text p t).andar = p.andar) :=
  ⟨fun h => update_from_text_area_guard p t h,
   fun h => update_from_text_andar_guard p t h⟩

/-- Witness for C1 (amended) at a concrete record and fragment. -/
theorem c1_amended_witness :
    truthyOpt (PropertyInfo.area { url := "u", area := some "50", andar := some "2 andar" }) = true
    ∧ (update_from_text { url := "u", area := some "50", andar := some "2 andar" }
        "100 m² 3 quartos").area = some "50"
    ∧ PropertyInfo.andar { url := "u", area := some "50", andar := some "2 andar" } ≠ none
    ∧ (update_from_text { url := "u", area := some "50", andar := some "2 andar" }
        "no 3 andar").andar = some "2 andar" :=
  ⟨by decide,
   (c1_amended_guarded_fields { url := "u", area := some "50", andar := some "2 andar" }
      "100 m² 3 quartos").1 (by decide),
   by decide,
   (c1_amended_guarded_fields { url := "u", area := some "50", andar := some "2 andar" }
      "no 3 andar").2 (by decide)⟩

/-- Claim C2, counterexample: on a record with empty area, the fragment
containing both the area marker and the room word leaves the whole
record unchanged — rooms is NOT set, contradicting the claim that rule 2
applies regardless of whether area is empty. -/
theorem c2_counterexample :
    update_from_text { url := "u" } "80 m² 3 quartos" = { url := "u" } := by
  decide

/-- Claim C2 (amended): for a fragment containing both the area-unit
marker and the room word, the area branch is still entered whenever area
is currently empty and its inner guard then prevents any update at all
(neither area nor rooms is set); the rooms rule applies to such a
fragment only when area is already non-empty, and then an adjacent
integer in [1,10] is stored in rooms. -/
theorem c2_amended_area_room_conflict (p : PropertyInfo) (t : String)
    (hm : (containsSub "m²" t || containsSub "mâ²" (pyLower t)) = true)
    (hq : containsSub "quarto" (pyLower t) = true) (ht : t ≠ "") :
    (truthyOpt p.area = false → update_from_text p t = p)
    ∧ (truthyOpt p.area = true → update_from_text p t = quartoBranch p (pyLower t))
    ∧ (∀ q, truthyOpt p.area = true → searchNumBefore "quarto" (pyLower t) = some q →
        1 ≤ q → q ≤ 10 → (update_from_text p t).quartos = some q) := by
  have h2 : truthyOpt p.area = true → update_from_text p t = quartoBranch p (pyLower t) := by
    intro ha
    unfold update_from_text
    simp [ht, hm, ha, hq]
  refine ⟨?_, h2, ?_⟩
  · intro ha
    unfold update_from_text
    simp [ht, hm, ha, hq]
  · intro q ha hsq hq1 hq2
    rw [h2 ha]
    exact quartoBranch_quartos p (pyLower t) q hsq hq1 hq2

/-- Witness for C2 (amended) at a concrete record and fragment. -/
theorem c2_amended_witness :
    (update_from_text { url := "u" } "80 m² 3 quartos" = { url := "u" })
    ∧ (update_from_text { url := "u", area := some "50" } "80 m² 3 quartos").quartos = some 3 :=
  ⟨(c2_amended_area_room_conflict { url := "u" } "80 m² 3 quartos" (by decide) (by decide)
      (by decide)).1 (by decide),
   (c2_amended_area_room_conflict { url := "u", area := some "50" } "80 m² 3 quartos"
      (by decide) (by decide) (by decide)).2.2 3 (by decide) (by decide) (by decide) (by decide)⟩

/-- Claim C7: the source's own comment says the area branch handles both
the "m²" and the mis-encoded "mÂ²" spellings, and the branch condition
indeed accepts the variant, but `clean_area`'s regex only matches the
proper "m²"; on the variant the branch assigns `None`, so the area is
dropped instead of being set to the leading digit group. -/
theorem c7_misencoded_area_bug :
    containsSub "mâ²" (pyLower "120 mÂ²") = true
    ∧ clean_area "120 m²" = some "120"
    ∧ clean_area "120 mÂ²" = none
    ∧ (update_from_text { url := "u" } "120 mÂ²").area = none := by
  decide

/-- Claim C8, counterexample: `update_from_text` is not idempotent.  On
the fragment below the first call sets area; the second call, seeing a
non-empty area, falls through to the bathroom branch and additionally
sets bathrooms, so applying twice differs from applying once. -/
theorem c8_counterexample :
    update_from_text (update_from_text { url := "u" } "10 m² 2 banheiros") "10 m² 2 banheiros"
      ≠ update_from_text { url := "u" } "10 m² 2 banheiros" := by
  decide

/-- Claim C8 (amended): applying `update_from_text` twice with the same
fragment equals applying it once for every fragment that contains
neither an area-unit marker nor the floor keyword; for such fragments
the branch taken depends only on the text, and each branch's effect is
determined by the text alone. -/
theorem c8_amended_idempotent (p : PropertyInfo) (t : String)
    (h1 : containsSub "m²" t = false) (h2 : containsSub "mâ²" (pyLower t) = false)
    (h3 : containsSub "andar" (pyLower t) = false) :
    update_from_text (update_from_text p t) t = update_from_text p t :=
  update_from_text_twice p t h1 h2 h3

/-- Witness for C8 (amended) at a concrete record and fragment. -/
theorem c8_amended_witness :
    update_from_text (update_from_text { url := "u" } "2 quartos e 1 banheiro") "2 quartos e 1 banheiro"
      = update_from_text { url := "u" } "2 quartos e 1 banheiro" :=
  c8_amended_idempotent { url := "u" } "2 quartos e 1 banheiro" (by decide) (by decide) (by decide)

/-- Claim C9: the parking branch's self-comparison guard `v != v` is
dead logic — removing that arm yields the same function on every record
and fragment, because the comparison is false for every parsed integer
value. -/
theorem c9_dead_parking_guard (p : PropertyInfo) (t : String) :
    update_from_text p t = update_from_text_nodead p t := by
  unfold update_from_text update_from_text_nodead
  dsimp only
  repeat' split
  all_goals first
    | rfl
    | exact vagaBranch_eq_nodead p (pyLower t)

/-- Claim C10: the text classifier only writes the detail fields — url,
title, address, prices and status are unchanged by every call; the empty
fragment is a no-op; and a fragment containing none of the recognized
keywords leaves the whole record unchanged. -/
theorem c10_classifier_frame (p : PropertyInfo) (t : String) :
    ((update_from_text p t).url = p.url ∧ (update_from_text p t).title = p.title
      ∧ (update_from_text p t).address_street = p.address_street
      ∧ (update_from_text p t).prices = p.prices
      ∧ (update_from_text p t).status = p.status)
    ∧ update_from_text p "" = p
    ∧ (containsSub "m²" t = false → containsSub "mâ²" (pyLower t) = false →
        containsSub "quarto" (pyLower t) = false → containsSub "banheiro" (pyLower t) = false →
        containsSub "vaga" (pyLower t) = false → containsSub "andar" (pyLower t) = false →
        containsSub "aceita pet" (pyLower t) = false →
        containsSub "sem mobília" (pyLower t) = false →
        containsSub "sem mobiliá" (pyLower t) = false →
        containsSub "metrô" (pyLower t) = false →
        update_from_text p t = p) :=
  ⟨update_from_text_frames p t, rfl,
   fun k1 k2 k3 k4 k5 k6 k7 k8 k9 k10 =>
     update_from_text_no_match p t k1 k2 k3 k4 k5 k6 k7 k8 k9 k10⟩

/-- Witness for C10 at a concrete record and keyword-free fragment. -/
theorem c10_witness :
    update_from_text { url := "u", title := some "T" } "lindo apartamento"
      = { url := "u", title := some "T" } :=
  (c10_classifier_frame { url := "u", title := some "T" } "lindo apartamento").2.2
    (by decide) (by decide) (by decide) (by decide) (by decide) (by decide) (by decide)
    (by decide) (by decide) (by decide)

lemma runSteps_append (xs ys : List Step) (p : PropertyInfo) :
    runSteps (xs ++ ys) p =
      if (runSteps xs p).2 then runSteps xs p else runSteps ys (runSteps xs p).1 := by
  induction xs generalizing p with
  | nil => simp [runSteps]
  | cons s rest ih =>
    simp only [List.cons_append, runSteps]
    by_cases h : (s p).2
    · simp [h]
    · simp [h, ih]

/-- Claim C3: every exception raised by an extraction phase is caught at
the single top-level entry point.  If the phases before `s` complete and
`s` raises, `parse_property` returns exactly the record state
accumulated up to and including `s`'s partial mutations, with status
downgraded to "parse_error": no rollback, no propagation (the function
is total), and the remaining phases are skipped. -/
theorem c3_parse_error_caught (pre : List Step) (s : Step) (rest : List Step)
    (html url : String) (hh : html ≠ "")
    (hpre : (runSteps pre { url := url }).2 = false)
    (hs : (s (runSteps pre { url := url }).1).2 = true) :
    parse_property (pre ++ s :: rest) html url
      = { (s (runSteps pre { url := url }).1).1 with status := "parse_error" } := by
  unfold parse_property
  rw [if_neg hh, runSteps_append, hpre]
  simp only [Bool.false_eq_true, if_false, runSteps]
  rw [hs]
  simp [hs]

/-- Witness for C3: a first phase that sets the title, then a phase that
raises after setting the area; the result keeps both fields and has
status "parse_error". -/
theorem c3_witness :
    parse_property
      [fun p => ({ p with title := some "T" }, false),
       fun p => ({ p with area := some "80" }, true),
       fun p => ({ p with status := "clobbered" }, false)] "<html>" "u"
      = { url := "u", title := some "T", area := some "80", status := "parse_error" } :=
  c3_parse_error_caught
    [fun p => ({ p with title := some "T" }, false)]
    (fun p => ({ p with area := some "80" }, true))
    [fun p => ({ p with status := "clobbered" }, false)]
    "<html>" "u" (by decide) (by rfl) (by rfl)

/-- Claim C4: with empty markup the top-level parse returns immediately
with status "no_content" and every optional field at its default,
independently of the extraction phases (none of them runs). -/
theorem c4_no_content_empty_markup (steps : List Step) (url : String) :
    parse_property steps "" url =
      { url := url, title := none, address_street := none, area := none, quartos := none,
        suite := 0, banheiros := none, vagas := none, andar := none, pet := "não",
        mobiliado := "sim", metro_proximo := "não", prices := [], status := "no_content" } :=
  rfl

lemma extract_title_address (page : Page) (p : PropertyInfo) :
    (extract_title page p).address_street = p.address_street := by
  unfold extract_title
  split
  all_goals rfl

lemma extract_address_already_set (page : Page) (p : PropertyInfo)
    (h : truthyOpt p.address_street = true) : extract_address page p = p := by
  unfold extract_address
  rw [if_pos h]

lemma detailsFold_address (l : List (List String)) (p : PropertyInfo) :
    (detailsFold l p).address_street = p.address_street := by
  induction l generalizing p with
  | nil => rfl
  | cons b rest ih =>
    unfold detailsFold
    dsimp only
    split
    · exact ih p
    · rw [ih]
      exact (update_from_text_frames p _).2.2.1

lemma extract_property_details_address (page : Page) (p : PropertyInfo) :
    (extract_property_details page p).address_street = p.address_street := by
  unfold extract_property_details
  dsimp only
  split
  · rw [(update_from_text_frames _ _).2.2.1]
    exact detailsFold_address _ p
  · exact detailsFold_address _ p

lemma priceRowStep_address (p : PropertyInfo) (row : PriceRow) :
    (priceRowStep p row).address_street = p.address_street := by
  unfold priceRowStep
  dsimp only
  repeat' split
  all_goals rfl

lemma pricesFold_address (l : List PriceRow) (p : PropertyInfo) :
    (pricesFold l p).address_street = p.address_street := by
  induction l generalizing p with
  | nil => rfl
  | cons row rest ih =>
    unfold pricesFold
    rw [ih]
    exact priceRowStep_address p row

/-- Claim C5: when the structured-data pass leaves a non-empty address,
the DOM address waterfall is a no-op (its early return fires), and the
full parse returns exactly the structured-data address. -/
theorem c5_structured_address_wins (page : Page) (html url : String) (hh : html ≠ "")
    (ha : truthyOpt (extract_from_json_ld page { url := url }).address_street = true) :
    extract_address page (extract_title page (extract_from_json_ld page { url := url }))
      = extract_title page (extract_from_json_ld page { url := url })
    ∧ (parse_property_html page html url).address_street
      = (extract_from_json_ld page { url := url }).address_street := by
  have ht : (extract_title page (extract_from_json_ld page { url := url })).address_street
      = (extract_from_json_ld page { url := url }).address_street :=
    extract_title_address page _
  have hskip : extract_address page (extract_title page (extract_from_json_ld page { url := url }))
      = extract_title page (extract_from_json_ld page { url := url }) :=
    extract_address_already_set page _ (by rw [ht]; exact ha)
  refine ⟨hskip, ?_⟩
  unfold parse_property_html parse_property parserSteps
  rw [if_neg hh]
  simp only [runSteps, liftStep, Bool.false_eq_true, if_false]
  rw [hskip]
  show (extract_prices page (extract_property_details page
      (extract_title page (extract_from_json_ld page { url := url })))).address_street
    = (extract_from_json_ld page { url := url }).address_street
  unfold extract_prices
  rw [pricesFold_address, extract_property_details_address, ht]

/-- A concrete page whose structured data carries an address and whose
DOM offers a different heuristic address via the paragraph strategy. -/
def pageWithBothAddresses : Page :=
  { jsonLdBlocks := [some (Json.obj
      [("@type", Json.str "Apartment"),
       ("address", Json.obj
         [("streetAddress", Json.str "Rua A"),
          ("addressLocality", Json.str "São Paulo")])])],
    titleText := some "Apto 1",
    addressParagraphTexts := ["Rua B, 99"],
    infoBlockTexts := [["2 quartos"]],
    priceRows := [{ labelText := some "Aluguel", valueTexts := ["R$ 1.000"] }] }

/-- Witness for C5: on the page above the heuristic address "Rua B, 99"
does not appear; the structured-data address survives the full parse. -/
theorem c5_witness :
    (parse_property_html pageWithBothAddresses "<html>" "u").address_street
      = some "Rua A, São Paulo" :=
  (c5_structured_address_wins pageWithBothAddresses "<html>" "u" (by decide)
    (by decide)).2.trans (by decide)

lemma pricesFold_append (xs ys : List PriceRow) (p : PropertyInfo) :
    pricesFold (xs ++ ys) p = pricesFold ys (pricesFold xs p) := by
  induction xs generalizing p with
  | nil => rfl
  | cons row rest ih =>
    simp only [List.cons_append, pricesFold]
    exact ih (priceRowStep p row)

lemma find_map_overwrite (m : List (String × String)) (k v : String)
    (h : m.any (fun kv => kv.1 == k) = true) :
    dictLookup (m.map (fun kv => if kv.1 == k then (k, v) else kv)) k = some v := by
  induction m with
  | nil => simp at h
  | cons kv rest ih =>
    by_cases hk : (kv.1 == k) = true
    · simp [dictLookup, List.find?, hk]
    · simp only [List.any_cons, hk, Bool.false_or] at h
      simp only [List.map_cons, hk, if_false, Bool.false_eq_true]
      simpa [dictLookup, List.find?, hk] using ih h

lemma find_append_new (m : List (String × String)) (k v : String)
    (h : m.any (fun kv => kv.1 == k) = false) :
    dictLookup (m ++ [(k, v)]) k = some v := by
  induction m with
  | nil => simp [dictLookup, List.find?]
  | cons kv rest ih =>
    simp only [List.any_cons, Bool.or_eq_false_iff] at h
    simpa [dictLookup, List.find?, h.1] using ih h.2

lemma dictLookup_insert (m : List (String × String)) (k v : String) :
    dictLookup (dictInsert m k v) k = some v := by
  unfold dictInsert
  split
  case isTrue h => exact find_map_overwrite m k v h
  case isFalse h => exact find_append_new m k v ((Bool.not_eq_true _) ▸ h)

/-- Claim C6 (amended): for a row whose label is non-empty after
trimming, which has value candidates, and whose LAST candidate's trimmed
text is non-empty, the price stored under the trimmed label is exactly
that trimmed last text — overwriting any earlier entry under the same
label (the state `p` and the earlier rows `rs` are arbitrary).  A row
whose last candidate trims to the empty string stores nothing. -/
theorem c6_amended_price_last_value (page : Page) (p : PropertyInfo) (rs : List PriceRow)
    (row : PriceRow) (l v : String)
    (hrows : page.priceRows = rs ++ [row])
    (hl : row.labelText = some l) (hl2 : pyStrip l ≠ "")
    (hv : row.valueTexts.getLast? = some v) (hv2 : pyStrip v ≠ "") :
    dictLookup (extract_prices page p).prices (pyStrip l) = some (pyStrip v) := by
  unfold extract_prices
  rw [hrows, pricesFold_append]
  show dictLookup (pricesFold [row] (pricesFold rs p)).prices (pyStrip l) = some (pyStrip v)
  simp only [pricesFold]
  unfold priceRowStep
  rw [hl]
  dsimp only
  rw [if_neg hl2, hv]
  dsimp only
  rw [if_pos (show pyStrip l ≠ "" ∧ pyStrip v ≠ "" from ⟨hl2, hv2⟩)]
  exact dictLookup_insert _ _ _

/-- Claim C6, counterexample: a row with non-empty label "Aluguel" and
two value candidates whose last trims to the empty string stores
nothing, contradicting the claim that the trimmed text of the last
candidate is always stored. -/
theorem c6_counterexample :
    dictLookup (extract_prices
      { priceRows := [{ labelText := some "Aluguel", valueTexts := ["R$ 100", " "] }] }
      { url := "u" }).prices "Aluguel" = none := by
  decide

/-- Witness for C6 (amended): the tooltip value "R$ 0" is superseded by
the last candidate "R$ 2.500", and an earlier row under the same label
is overwritten. -/
theorem c6_amended_witness :
    dictLookup (extract_prices
      { priceRows := [{ labelText := some "Aluguel", valueTexts := ["R$ 3.000"] },
                      { labelText := some "Aluguel", valueTexts := ["R$ 0", "R$ 2.500"] }] }
      { url := "u" }).prices (pyStrip "Aluguel") = some (pyStrip "R$ 2.500") :=
  c6_amended_price_last_value
    { priceRows := [{ labelText := some "Aluguel", valueTexts := ["R$ 3.000"] },
                    { labelText := some "Aluguel", valueTexts := ["R$ 0", "R$ 2.500"] }] }
    { url := "u" }
    [{ labelText := some "Aluguel", valueTexts := ["R$ 3.000"] }]
    { labelText := some "Aluguel", valueTexts := ["R$ 0", "R$ 2.500"] }
    "Aluguel" "R$ 2.500" rfl rfl (by decide) rfl (by decide)
